import Mathlib

/-!
Shallow embedding of the real-time collaboration core of the ai-notes
backend (src/server.js): the socket event handlers, the in-memory room
registries (noteRooms / taskRooms), the presence map (activeUsers), the
access-control predicates (canAccessNote, canAccessTask, canEditTask),
and the emit targets used by the handlers (socket.emit, socket.to(room),
io.to(room), socket.broadcast, io.emit).

Users, notes and tasks are identified by opaque ids, modelled as Nat.
Timestamps (new Date().toISOString()) are modelled as a Nat parameter
supplied by the caller of each handler.  Each handler is a pure function
from the external store (Db), the shared in-memory state and the socket
state to updated state plus a list of (target, event) emissions.
-/

namespace AiNotes

/-- User record as selected at socket handshake (id, name, email). -/
structure User where
  id : Nat
  name : String
  email : String
deriving DecidableEq, Repr

/-- Row of the note table: id and owner (userId). -/
structure Note where
  id : Nat
  userId : Nat
deriving DecidableEq, Repr

/-- Sharing permission enum of the Prisma schema. -/
inductive Perm
  | VIEW
  | EDIT
deriving DecidableEq, Repr

/-- Row of the sharedNotes relation. -/
structure SharedNote where
  noteId : Nat
  sharedWithUserId : Nat
  permission : Perm
deriving DecidableEq, Repr

/-- Row of the task table: id, owner (userId) and status string. -/
structure Task where
  id : Nat
  userId : Nat
  status : String
deriving DecidableEq, Repr

/-- Row of the sharedTasks relation. -/
structure SharedTask where
  taskId : Nat
  sharedWithUserId : Nat
  permission : Perm
deriving DecidableEq, Repr

/-- The external relational store accessed through Prisma. -/
structure Db where
  users : List User
  notes : List Note
  sharedNotes : List SharedNote
  tasks : List Task
  sharedTasks : List SharedTask
deriving DecidableEq, Repr

/-- Embeds canAccessNote (server.js line 1272): prisma.note.findFirst with
id = noteId and (owner OR some sharedNotes row for this user); returns
whether a matching note exists. -/
def canAccessNote (db : Db) (userId noteId : Nat) : Bool :=
  db.notes.any fun n =>
    n.id == noteId &&
      (n.userId == userId ||
        db.sharedNotes.any fun s =>
          s.noteId == n.id && s.sharedWithUserId == userId)

/-- Embeds canAccessTask (server.js line 431): prisma.task.findFirst with
id = taskId and (owner OR some sharedTasks row for this user, any
permission). -/
def canAccessTask (db : Db) (userId taskId : Nat) : Bool :=
  db.tasks.any fun t =>
    t.id == taskId &&
      (t.userId == userId ||
        db.sharedTasks.any fun s =>
          s.taskId == t.id && s.sharedWithUserId == userId)

/-- Embeds canEditTask (server.js line 451): prisma.task.findFirst with
id = taskId and (owner OR some sharedTasks row for this user with
permission EDIT). -/
def canEditTask (db : Db) (userId taskId : Nat) : Bool :=
  db.tasks.any fun t =>
    t.id == taskId &&
      (t.userId == userId ||
        db.sharedTasks.any fun s =>
          s.taskId == t.id && s.sharedWithUserId == userId &&
            s.permission == Perm.EDIT)

/-- Embeds prisma.user.findUnique by id with the collaborator select. -/
def findUser (db : Db) (userId : Nat) : Option User :=
  db.users.find? fun u => u.id == userId

/-- Transport-level room names: note-(id), task-(id) and user-(id)
string prefixes of the source become typed constructors. -/
inductive RoomName
  | note (id : Nat)
  | task (id : Nat)
  | user (id : Nat)
deriving DecidableEq, Repr

/-- Embeds room.startsWith a note room name head, as used to select
the previous note rooms in the join-note handler. -/
def isNoteRoom : RoomName → Bool
  | RoomName.note _ => true
  | _ => false

/-- Embeds room.startsWith a task room name head, as used to select
the previous task rooms in the join-task handler. -/
def isTaskRoom : RoomName → Bool
  | RoomName.task _ => true
  | _ => false

/-- Per-connection state: socket id, authenticated user id, the cached
user record attached at handshake, and the transport rooms the socket
has joined. -/
structure SocketState where
  sid : Nat
  userId : Nat
  user : User
  rooms : List RoomName
deriving DecidableEq, Repr

/-- Process-wide mutable maps of server.js lines 161 and 163:
activeUsers (userId to socketId), noteRooms and taskRooms (scope id to
set of member user ids).  Association lists keep Map insertion order;
member lists keep Set insertion order and hold no duplicates. -/
structure RoomsState where
  activeUsers : List (Nat × Nat)
  noteRooms : List (Nat × List Nat)
  taskRooms : List (Nat × List Nat)
deriving DecidableEq, Repr

/-- JS Set.add: append the element if it is not already present. -/
def setAdd (l : List Nat) (x : Nat) : List Nat :=
  if x ∈ l then l else l ++ [x]

/-- Embeds the registry update of the join handlers: create the member
set if the scope key is absent, then add the user to it. -/
def registryAdd (reg : List (Nat × List Nat)) (k v : Nat) :
    List (Nat × List Nat) :=
  match reg with
  | [] => [(k, [v])]
  | (k0, s) :: rest =>
      if k0 == k then (k0, setAdd s v) :: rest
      else (k0, s) :: registryAdd rest k v

/-- Embeds Map.get on a registry: the member set of a scope, empty when
the scope has no entry. -/
def registryMembers (reg : List (Nat × List Nat)) (k : Nat) : List Nat :=
  match reg.find? (fun p => p.1 == k) with
  | none => []
  | some p => p.2

/-- Embeds the disconnect cleanup loop over a registry: delete this user
from every member set and drop a scope entry whose set becomes empty. -/
def registryRemoveUser (reg : List (Nat × List Nat)) (uid : Nat) :
    List (Nat × List Nat) :=
  reg.filterMap fun p =>
    let s := p.2.filter fun u => u != uid
    if s.isEmpty then none else some (p.1, s)

/-- JS socket.join: add the room if not already joined. -/
def roomJoin (rooms : List RoomName) (r : RoomName) : List RoomName :=
  if r ∈ rooms then rooms else rooms ++ [r]

/-- JS truthiness of an optional string followed by a default:
an absent or empty string falls through to the default. -/
def jsOrStr (a : Option String) (b : String) : String :=
  match a with
  | none => b
  | some s => if s == "" then b else s

/-- Emit targets used by the handlers: socket.emit (one socket),
socket.to(room).emit (room members except the sender socket),
io.to(room).emit (all room members), socket.broadcast.emit (every
socket except the sender), io.emit (every socket). -/
inductive Target
  | socket (sid : Nat)
  | roomExcept (r : RoomName) (sid : Nat)
  | room (r : RoomName)
  | broadcastExcept (sid : Nat)
  | everyone
deriving DecidableEq, Repr

/-- Outbound server events, one constructor per emit in server.js, with
the fields of the emitted object. -/
inductive SEvent
  | accessDenied (noteId : Nat)
  | taskAccessDenied (taskId : Nat)
  | userJoinedNote (noteId : Nat) (user : User)
  | noteCollaborators (noteId : Nat) (collaborators : List User)
  | userJoinedTask (taskId : Nat) (user : User)
  | taskCollaborators (taskId : Nat) (collaborators : List User)
  | noteContentUpdated (noteId : Nat) (content : String) (updatedBy : User)
      (cursorPosition : Nat) (timestamp : Nat)
  | userCursorMove (noteId userId : Nat) (user : User) (position : Nat)
      (timestamp : Nat)
  | userTypingUpdate (noteId userId : Nat) (user : User) (isTyping : Bool)
      (timestamp : Nat)
  | userLeftNote (noteId userId : Nat)
  | attachmentAdded (noteId attachment : Nat) (updatedBy : User)
  | attachmentDeleted (noteId attachmentId : Nat) (updatedBy : User)
  | globalNoteShared (targetUserId noteId : Nat) (sharedBy : User)
      (message : String) (timestamp : Nat)
  | globalAccessRevoked (targetUserId noteId : Nat) (revokedBy : User)
      (message : String) (timestamp : Nat)
  | taskUpdateDenied (taskId : Nat)
  | taskUpdateError (error : String)
  | taskStatusChanged (taskId : Nat) (status : String) (updatedBy : User)
      (task : Task) (taskOwner : Option User) (timestamp : Nat)
  | shareDenied (taskId : Nat)
  | globalTaskShared (targetUserId taskId : Nat) (sharedBy : User)
      (permission : Perm) (message : String) (timestamp : Nat)
  | taskShareSuccess (taskId targetUserId : Nat) (permission : Perm)
      (message : String)
  | revokeDenied (taskId : Nat)
  | globalTaskAccessRevoked (targetUserId taskId : Nat) (revokedBy : User)
      (message : String) (timestamp : Nat)
  | taskRevokeSuccess (taskId targetUserId : Nat) (message : String)
  | userTaskTyping (taskId userId : Nat) (user : User) (isTyping : Bool)
      (timestamp : Nat)
  | userCommentTyping (taskId userId : Nat) (user : User) (isTyping : Bool)
      (timestamp : Nat)
  | userOffline (userId : Nat)
deriving DecidableEq, Repr

/-- Whether an emission with the given target is delivered to the given
recipient socket, following socket.io routing. -/
def deliversTo (t : Target) (recip : SocketState) : Bool :=
  match t with
  | Target.socket s => recip.sid == s
  | Target.roomExcept r s => recip.sid != s && decide (r ∈ recip.rooms)
  | Target.room r => decide (r ∈ recip.rooms)
  | Target.broadcastExcept s => recip.sid != s
  | Target.everyone => true

/-- The events a recipient socket receives from a handler's emissions,
in emission order. -/
def receivedEvents (emits : List (Target × SEvent)) (recip : SocketState) :
    List SEvent :=
  (emits.filter fun te => deliversTo te.1 recip).map Prod.snd

/-- Recognises a user-joined-note event. -/
def isUserJoinedNote : SEvent → Bool
  | SEvent.userJoinedNote _ _ => true
  | _ => false

/-- Recognises a user-joined-task event. -/
def isUserJoinedTask : SEvent → Bool
  | SEvent.userJoinedTask _ _ => true
  | _ => false

/-- Recognises a user-left-note event. -/
def isUserLeftNote : SEvent → Bool
  | SEvent.userLeftNote _ _ => true
  | _ => false

/-- Recognises a user-offline event. -/
def isUserOffline : SEvent → Bool
  | SEvent.userOffline _ => true
  | _ => false

/-- Recognises a task-status-changed event. -/
def isTaskStatusChanged : SEvent → Bool
  | SEvent.taskStatusChanged _ _ _ _ _ _ => true
  | _ => false

/-- The server-generated timestamp field of a relayed event, when the
emitted object has one. -/
def eventTimestamp : SEvent → Option Nat
  | SEvent.noteContentUpdated _ _ _ _ ts => some ts
  | SEvent.userCursorMove _ _ _ _ ts => some ts
  | SEvent.userTypingUpdate _ _ _ _ ts => some ts
  | SEvent.userTaskTyping _ _ _ _ ts => some ts
  | SEvent.userCommentTyping _ _ _ _ ts => some ts
  | SEvent.attachmentAdded _ _ _ => none
  | SEvent.attachmentDeleted _ _ _ => none
  | _ => none

/-- The sender-identity field (updatedBy or user) of a relayed event,
when the emitted object has one. -/
def eventSender : SEvent → Option User
  | SEvent.noteContentUpdated _ _ u _ _ => some u
  | SEvent.userCursorMove _ _ u _ _ => some u
  | SEvent.userTypingUpdate _ _ u _ _ => some u
  | SEvent.userTaskTyping _ _ u _ _ => some u
  | SEvent.userCommentTyping _ _ u _ _ => some u
  | SEvent.attachmentAdded _ _ u => some u
  | SEvent.attachmentDeleted _ _ u => some u
  | _ => none

/-- Result of a join handler: the updated socket, the updated shared
state and the emissions, in emission order. -/
structure JoinResult where
  socket : SocketState
  state : RoomsState
  emits : List (Target × SEvent)
deriving DecidableEq, Repr

/-- Embeds the join-note handler (server.js line 190): access gate,
leave previous transport note rooms, join the new note room, add the
user to the noteRooms registry, notify the other room members with
user-joined-note, resolve every registry member against the user table
and send the joining socket a note-collaborators event. -/
def joinNote (db : Db) (st : RoomsState) (sock : SocketState)
    (noteId : Nat) : JoinResult :=
  if !(canAccessNote db sock.userId noteId) then
    ⟨sock, st, [(Target.socket sock.sid, SEvent.accessDenied noteId)]⟩
  else
    let afterLeave : SocketState :=
      { sock with rooms := sock.rooms.filter fun r => !(isNoteRoom r) }
    let joined : SocketState :=
      { afterLeave with
          rooms := roomJoin afterLeave.rooms (RoomName.note noteId) }
    let st1 : RoomsState :=
      { st with noteRooms := registryAdd st.noteRooms noteId sock.userId }
    let memberIds := registryMembers st1.noteRooms noteId
    let collaborators := memberIds.filterMap fun uid => findUser db uid
    ⟨joined, st1,
      [(Target.roomExcept (RoomName.note noteId) sock.sid,
          SEvent.userJoinedNote noteId sock.user),
       (Target.socket sock.sid,
          SEvent.noteCollaborators noteId collaborators)]⟩

/-- Embeds the join-task handler (server.js line 472): same shape as
join-note over the taskRooms registry, with task-access-denied,
user-joined-task and task-collaborators events. -/
def joinTask (db : Db) (st : RoomsState) (sock : SocketState)
    (taskId : Nat) : JoinResult :=
  if !(canAccessTask db sock.userId taskId) then
    ⟨sock, st, [(Target.socket sock.sid, SEvent.taskAccessDenied taskId)]⟩
  else
    let afterLeave : SocketState :=
      { sock with rooms := sock.rooms.filter fun r => !(isTaskRoom r) }
    let joined : SocketState :=
      { afterLeave with
          rooms := roomJoin afterLeave.rooms (RoomName.task taskId) }
    let st1 : RoomsState :=
      { st with taskRooms := registryAdd st.taskRooms taskId sock.userId }
    let memberIds := registryMembers st1.taskRooms taskId
    let collaborators := memberIds.filterMap fun uid => findUser db uid
    ⟨joined, st1,
      [(Target.roomExcept (RoomName.task taskId) sock.sid,
          SEvent.userJoinedTask taskId sock.user),
       (Target.socket sock.sid,
          SEvent.taskCollaborators taskId collaborators)]⟩

/-- Embeds the note-content-change handler (server.js line 252): relay
note-content-updated to the other members of the note room, with the
sender identity and a server timestamp; no access or membership check. -/
def noteContentChange (sock : SocketState) (noteId : Nat)
    (content : String) (cursorPosition ts : Nat) :
    List (Target × SEvent) :=
  [(Target.roomExcept (RoomName.note noteId) sock.sid,
      SEvent.noteContentUpdated noteId content sock.user cursorPosition ts)]

/-- Embeds the cursor-move handler (server.js line 266). -/
def cursorMove (sock : SocketState) (noteId position ts : Nat) :
    List (Target × SEvent) :=
  [(Target.roomExcept (RoomName.note noteId) sock.sid,
      SEvent.userCursorMove noteId sock.userId sock.user position ts)]

/-- Embeds the user-typing handler (server.js line 280). -/
def userTyping (sock : SocketState) (noteId : Nat) (isTyping : Bool)
    (ts : Nat) : List (Target × SEvent) :=
  [(Target.roomExcept (RoomName.note noteId) sock.sid,
      SEvent.userTypingUpdate noteId sock.userId sock.user isTyping ts)]

/-- Embeds the attachment-added handler (server.js line 321): the
emitted object carries noteId, attachment and updatedBy only. -/
def attachmentAdded (sock : SocketState) (noteId attachment : Nat) :
    List (Target × SEvent) :=
  [(Target.roomExcept (RoomName.note noteId) sock.sid,
      SEvent.attachmentAdded noteId attachment sock.user)]

/-- Embeds the attachment-deleted handler (server.js line 333): the
emitted object carries noteId, attachmentId and updatedBy only. -/
def attachmentDeleted (sock : SocketState) (noteId attachmentId : Nat) :
    List (Target × SEvent) :=
  [(Target.roomExcept (RoomName.note noteId) sock.sid,
      SEvent.attachmentDeleted noteId attachmentId sock.user)]

/-- Embeds the task-typing handler (server.js line 850). -/
def taskTyping (sock : SocketState) (taskId : Nat) (isTyping : Bool)
    (ts : Nat) : List (Target × SEvent) :=
  [(Target.roomExcept (RoomName.task taskId) sock.sid,
      SEvent.userTaskTyping taskId sock.userId sock.user isTyping ts)]

/-- Embeds the comment-typing handler (server.js line 936). -/
def commentTyping (sock : SocketState) (taskId : Nat) (isTyping : Bool)
    (ts : Nat) : List (Target × SEvent) :=
  [(Target.roomExcept (RoomName.task taskId) sock.sid,
      SEvent.userCommentTyping taskId sock.userId sock.user isTyping ts)]

/-- Embeds the share-note handler (server.js line 345): no access
check; io.emit global-note-shared to every connected socket, with
sharedBy defaulting to the sender identity. -/
def shareNote (sock : SocketState) (targetUserId noteId : Nat)
    (sharedBy : Option User) (ts : Nat) : List (Target × SEvent) :=
  [(Target.everyone,
      SEvent.globalNoteShared targetUserId noteId (sharedBy.getD sock.user)
        (jsOrStr (sharedBy.map User.name) sock.user.name ++
          " shared a note with you!") ts)]

/-- Embeds the revoke-access handler (server.js line 374): no access
check; io.emit global-access-revoked to every connected socket. -/
def revokeAccess (sock : SocketState) (targetUserId noteId : Nat)
    (revokedBy : Option User) (ts : Nat) : List (Target × SEvent) :=
  [(Target.everyone,
      SEvent.globalAccessRevoked targetUserId noteId
        (revokedBy.getD sock.user)
        (jsOrStr (revokedBy.map User.name) sock.user.name ++
          " revoked your access to a note") ts)]

/-- Embeds the share-task handler (server.js line 625): canEditTask
gate; on denial emit share-denied to the sender only; on success notify
the target user's personal room with global-task-shared and acknowledge
the sender with task-share-success. -/
def shareTask (db : Db) (sock : SocketState) (taskId targetUserId : Nat)
    (permission : Perm) (ts : Nat) : List (Target × SEvent) :=
  if !(canEditTask db sock.userId taskId) then
    [(Target.socket sock.sid, SEvent.shareDenied taskId)]
  else
    [(Target.room (RoomName.user targetUserId),
        SEvent.globalTaskShared targetUserId taskId sock.user permission
          (sock.user.name ++ " shared a task with you!") ts),
     (Target.socket sock.sid,
        SEvent.taskShareSuccess taskId targetUserId permission
          "Task shared successfully")]

/-- Embeds the revoke-task-access handler (server.js line 682):
canEditTask gate; on denial emit revoke-denied to the sender only; on
success notify the target user's personal room and acknowledge the
sender. -/
def revokeTaskAccess (db : Db) (sock : SocketState)
    (taskId targetUserId : Nat) (ts : Nat) : List (Target × SEvent) :=
  if !(canEditTask db sock.userId taskId) then
    [(Target.socket sock.sid, SEvent.revokeDenied taskId)]
  else
    [(Target.room (RoomName.user targetUserId),
        SEvent.globalTaskAccessRevoked targetUserId taskId sock.user
          (sock.user.name ++ " revoked your access to a task") ts),
     (Target.socket sock.sid,
        SEvent.taskRevokeSuccess taskId targetUserId
          "Access revocation notification sent")]

/-- The fixed status enumeration of the task-status-update handler. -/
def validStatuses : List String := ["TODO", "IN_PROGRESS", "DONE"]

/-- Embeds prisma.task.update by id: none when no task has this id (the
update throws and the handler's catch fires); otherwise the store with
the status written and the updated row. -/
def dbTaskUpdate (db : Db) (taskId : Nat) (status : String) :
    Option (Db × Task) :=
  match db.tasks.find? (fun t => t.id == taskId) with
  | none => none
  | some t =>
      some
        ({ db with
            tasks := db.tasks.map fun u =>
              if u.id == taskId then { u with status := status } else u },
         { t with status := status })

/-- Embeds the task-status-update handler (server.js line 548):
canEditTask gate with task-update-denied, status validation against
validStatuses with task-update-error, persist through the store, then
io.to(task room) task-status-changed plus a direct confirmation emit to
the sender. -/
def taskStatusUpdate (db : Db) (sock : SocketState) (taskId : Nat)
    (status : String) (ts : Nat) : Db × List (Target × SEvent) :=
  if !(canEditTask db sock.userId taskId) then
    (db, [(Target.socket sock.sid, SEvent.taskUpdateDenied taskId)])
  else if !(validStatuses.contains status) then
    (db, [(Target.socket sock.sid, SEvent.taskUpdateError "Invalid status")])
  else
    match dbTaskUpdate db taskId status with
    | none =>
        (db, [(Target.socket sock.sid,
                SEvent.taskUpdateError "Failed to update task status")])
    | some (db1, t1) =>
        (db1,
         [(Target.room (RoomName.task taskId),
             SEvent.taskStatusChanged taskId status sock.user t1
               (findUser db t1.userId) ts),
          (Target.socket sock.sid,
             SEvent.taskStatusChanged taskId status sock.user t1
               (findUser db t1.userId) ts)])

/-- Embeds the disconnect handler (server.js line 968): delete the
presence entry, remove this user from every note and task registry set
(dropping sets that become empty) and broadcast user-offline to every
other socket.  No user-left-note or user-left-task event is emitted. -/
def disconnect (st : RoomsState) (sock : SocketState) :
    RoomsState × List (Target × SEvent) :=
  ({ activeUsers := st.activeUsers.filter fun p => p.1 != sock.userId,
     noteRooms := registryRemoveUser st.noteRooms sock.userId,
     taskRooms := registryRemoveUser st.taskRooms sock.userId },
   [(Target.broadcastExcept sock.sid, SEvent.userOffline sock.userId)])

/-- Concrete user fixture. -/
def uA : User := ⟨1, "Alice", "alice@example.com"⟩

/-- Concrete user fixture. -/
def uB : User := ⟨2, "Bob", "bob@example.com"⟩

/-- Concrete user fixture. -/
def uC : User := ⟨3, "Cara", "cara@example.com"⟩

/-- Socket of user 1, joined to its personal room and note room 123. -/
def sockA : SocketState := ⟨101, 1, uA, [RoomName.user 1, RoomName.note 123]⟩

/-- Socket of user 2, joined to its personal room and note room 123. -/
def sockB : SocketState := ⟨102, 2, uB, [RoomName.user 2, RoomName.note 123]⟩

/-- Shared state with users 1 and 2 present and both in note room 123. -/
def st123 : RoomsState := ⟨[(1, 101), (2, 102)], [(123, [1, 2])], []⟩

/-- Store with two notes, 10 and 20, both owned by user 1. -/
def dbNotes : Db := ⟨[uA], [⟨10, 1⟩, ⟨20, 1⟩], [], [], []⟩

/-- Socket of user 1 in its personal room only. -/
def sockA0 : SocketState := ⟨101, 1, uA, [RoomName.user 1]⟩

/-- Shared state with user 1 present and all registries empty. -/
def st0 : RoomsState := ⟨[(1, 101)], [], []⟩

/-- Store with task 7 owned by user 1 and shared with user 2 with VIEW
permission only. -/
def dbTask : Db := ⟨[uA, uB], [], [], [⟨7, 1, "TODO"⟩], [⟨7, 2, Perm.VIEW⟩]⟩

/-- Socket of user 2 in its personal room only. -/
def sockB0 : SocketState := ⟨102, 2, uB, [RoomName.user 2]⟩

/-- Socket of user 1, joined to its personal room and task room 7. -/
def sockATask : SocketState := ⟨101, 1, uA, [RoomName.user 1, RoomName.task 7]⟩

/-- Socket of user 1, joined to its personal room and note room 42. -/
def sockA42 : SocketState := ⟨101, 1, uA, [RoomName.user 1, RoomName.note 42]⟩

/-- Socket of user 2, joined to its personal room and note room 42. -/
def sockB42 : SocketState := ⟨102, 2, uB, [RoomName.user 2, RoomName.note 42]⟩

/-- Socket of user 3 in its personal room only: it never joined any
note or task room. -/
def sockC : SocketState := ⟨103, 3, uC, [RoomName.user 3]⟩

/-- An empty store: nobody owns or is granted anything. -/
def dbEmpty : Db := ⟨[], [], [], [], []⟩

/-- Socket of user 1, joined to its personal room, note room 42 and
task room 7. -/
def sockABoth : SocketState :=
  ⟨101, 1, uA, [RoomName.user 1, RoomName.note 42, RoomName.task 7]⟩

/-- Unfolding the member lookup over a cons cell of a registry. -/
theorem registryMembers_cons (k0 k : Nat) (s : List Nat)
    (rest : List (Nat × List Nat)) :
    registryMembers ((k0, s) :: rest) k =
      if k0 == k then s else registryMembers rest k := by
  cases hk : k0 == k <;> simp [registryMembers, List.find?_cons, hk]

/-- JS Set.add puts the element in the set. -/
theorem mem_setAdd_self (l : List Nat) (x : Nat) : x ∈ setAdd l x := by
  unfold setAdd
  split
  · assumption
  · simp

/-- An entry surviving the disconnect registry sweep no longer holds
the removed user. -/
theorem registryRemoveUser_mem_snd (reg : List (Nat × List Nat))
    (uid : Nat) (p : Nat × List Nat)
    (hp : p ∈ registryRemoveUser reg uid) : uid ∉ p.2 := by
  simp only [registryRemoveUser, List.mem_filterMap] at hp
  obtain ⟨q, _, hfq⟩ := hp
  split at hfq
  · exact absurd hfq (by simp)
  · intro hmem
    obtain rfl : (q.1, q.2.filter fun u => u != uid) = p :=
      Option.some.inj hfq
    have := (List.mem_filter.mp hmem).2
    simp at this

/-- After the disconnect sweep, the removed user is in no member set of
the registry. -/
theorem registryRemoveUser_not_mem (reg : List (Nat × List Nat))
    (uid k : Nat) :
    uid ∉ registryMembers (registryRemoveUser reg uid) k := by
  unfold registryMembers
  cases hfind : (registryRemoveUser reg uid).find? (fun p => p.1 == k) with
  | none => simp
  | some p =>
      exact registryRemoveUser_mem_snd reg uid p
        (List.mem_of_find?_eq_some hfind)

/-- Looking a key up after filtering that key out yields nothing. -/
theorem find_after_filter_ne (l : List (Nat × Nat)) (uid : Nat) :
    (l.filter fun p => p.1 != uid).find? (fun p => p.1 == uid) = none := by
  rw [List.find?_eq_none]
  intro x hx
  have h2 := (List.mem_filter.mp hx).2
  simp at h2
  simp [h2]

/-- C1: the spec says a room-mate of a disconnecting user receives a
user-left-note event; in the code the disconnect handler emits only a
global user-offline broadcast, so user 2 (in note room 123 with user 1)
receives zero user-left-note events when user 1 disconnects, not
exactly one. -/
theorem c1_counterexample :
    ((receivedEvents (disconnect st123 sockA).2 sockB).countP
        isUserLeftNote = 0) ∧
    ¬ ((receivedEvents (disconnect st123 sockA).2 sockB).countP
        isUserLeftNote = 1) := by
  constructor <;> decide

/-- C1 (amended): when a user disconnects, a room-mate receives no
user-left-note event at all; instead it receives exactly one global
user-offline event carrying the leaving user's id, and the leaving user
is removed from every note-room member set and from the presence map. -/
theorem c1_disconnect_cleanup (st : RoomsState) (a b : SocketState)
    (n : Nat) (hsid : b.sid ≠ a.sid) :
    receivedEvents (disconnect st a).2 b = [SEvent.userOffline a.userId] ∧
    (receivedEvents (disconnect st a).2 b).countP isUserLeftNote = 0 ∧
    a.userId ∉ registryMembers (disconnect st a).1.noteRooms n ∧
    (disconnect st a).1.activeUsers.find? (fun p => p.1 == a.userId) =
      none := by
  have hrec : receivedEvents (disconnect st a).2 b =
      [SEvent.userOffline a.userId] := by
    simp [disconnect, receivedEvents, deliversTo, hsid]
  refine ⟨hrec, ?_, ?_, ?_⟩
  · rw [hrec]
    simp [isUserLeftNote]
  · exact registryRemoveUser_not_mem st.noteRooms a.userId n
  · exact find_after_filter_ne st.activeUsers a.userId

/-- C1 witness: the amended disconnect behaviour at the concrete
two-user state over note room 123. -/
theorem c1_witness :
    sockB.sid ≠ sockA.sid ∧
    (receivedEvents (disconnect st123 sockA).2 sockB =
        [SEvent.userOffline sockA.userId] ∧
      (receivedEvents (disconnect st123 sockA).2 sockB).countP
          isUserLeftNote = 0 ∧
      sockA.userId ∉
        registryMembers (disconnect st123 sockA).1.noteRooms 123 ∧
      (disconnect st123 sockA).1.activeUsers.find?
          (fun p => p.1 == sockA.userId) = none) :=
  ⟨by decide, c1_disconnect_cleanup st123 sockA sockB 123 (by decide)⟩

/-- Registry join puts the user in the scope's member set. -/
theorem mem_registryAdd_self (reg : List (Nat × List Nat)) (k v : Nat) :
    v ∈ registryMembers (registryAdd reg k v) k := by
  induction reg with
  | nil => simp [registryAdd, registryMembers_cons, mem_setAdd_self]
  | cons p rest ih =>
      obtain ⟨k0, s⟩ := p
      unfold registryAdd
      cases hk : k0 == k
      · simp [registryMembers_cons, hk, ih]
      · simp [registryMembers_cons, hk, mem_setAdd_self]

/-- Registry join leaves every other scope's member set unchanged. -/
theorem registryMembers_registryAdd_other (reg : List (Nat × List Nat))
    (k j v : Nat) (h : k ≠ j) :
    registryMembers (registryAdd reg k v) j = registryMembers reg j := by
  induction reg with
  | nil =>
      have hj : (k == j) = false := by simp [h]
      simp [registryAdd, registryMembers_cons, hj, registryMembers]
  | cons p rest ih =>
      obtain ⟨k0, s⟩ := p
      unfold registryAdd
      by_cases hk : k0 = k
      · subst hk
        have hj : (k0 == j) = false := by simp [h]
        simp [registryMembers_cons, hj]
      · have hkb : (k0 == k) = false := by simp [hk]
        simp [hkb, registryMembers_cons, ih]

/-- Note rooms satisfy the note-room test. -/
theorem isNoteRoom_note (n : Nat) : isNoteRoom (RoomName.note n) = true :=
  rfl

/-- A note room is never among the rooms kept by the leave-previous
filter of the join-note handler. -/
theorem note_not_mem_filterNote (rooms : List RoomName) (n : Nat) :
    RoomName.note n ∉ rooms.filter fun r => !(isNoteRoom r) := by
  simp [List.mem_filter, isNoteRoom]

/-- Joining a note room after the leave-previous filter appends it. -/
theorem roomJoin_filterNote (rooms : List RoomName) (n : Nat) :
    roomJoin (rooms.filter fun r => !(isNoteRoom r)) (RoomName.note n) =
      rooms.filter (fun r => !(isNoteRoom r)) ++ [RoomName.note n] := by
  unfold roomJoin
  rw [if_neg (note_not_mem_filterNote rooms n)]

/-- The leave-previous filter drops a freshly appended note room and is
idempotent on already filtered rooms. -/
theorem filterNote_append_note (rooms : List RoomName) (n : Nat) :
    ((rooms.filter (fun r => !(isNoteRoom r)) ++ [RoomName.note n]).filter
        fun r => !(isNoteRoom r)) =
      rooms.filter fun r => !(isNoteRoom r) := by
  rw [List.filter_append, List.filter_filter]
  simp [isNoteRoom]

/-- C3: after join-note(10) then join-note(20) by the same permitted
connection, the transport rooms hold only note room 20, but the
noteRooms registry still lists the user in room 10's member set, so
the claim that the connection is a member of room B only fails on the
registry side. -/
theorem c3_counterexample :
    ((joinNote dbNotes (joinNote dbNotes st0 sockA0 10).state
        (joinNote dbNotes st0 sockA0 10).socket 20).socket.rooms =
      [RoomName.user 1, RoomName.note 20]) ∧
    1 ∈ registryMembers
        (joinNote dbNotes (joinNote dbNotes st0 sockA0 10).state
          (joinNote dbNotes st0 sockA0 10).socket 20).state.noteRooms
        10 := by
  decide

/-- C3 (amended): after join-note(A) then join-note(B) on the same
connection, both permitted and with A different from B, the transport
rooms contain note room B and no longer contain note room A, but the
noteRooms registry keeps the user in room A's member set as well as
room B's. -/
theorem c3_rejoin_rooms (db : Db) (st : RoomsState) (s : SocketState)
    (a b : Nat) (ha : canAccessNote db s.userId a = true)
    (hb : canAccessNote db s.userId b = true) (hab : a ≠ b) :
    RoomName.note b ∈
      (joinNote db (joinNote db st s a).state
        (joinNote db st s a).socket b).socket.rooms ∧
    RoomName.note a ∉
      (joinNote db (joinNote db st s a).state
        (joinNote db st s a).socket b).socket.rooms ∧
    s.userId ∈ registryMembers
      (joinNote db (joinNote db st s a).state
        (joinNote db st s a).socket b).state.noteRooms a ∧
    s.userId ∈ registryMembers
      (joinNote db (joinNote db st s a).state
        (joinNote db st s a).socket b).state.noteRooms b := by
  have h1 : joinNote db st s a =
      ⟨{ s with rooms := s.rooms.filter (fun r => !(isNoteRoom r)) ++
            [RoomName.note a] },
        { st with noteRooms := registryAdd st.noteRooms a s.userId },
        (joinNote db st s a).emits⟩ := by
    simp [joinNote, ha, roomJoin_filterNote]
  rw [h1]
  have h2 : joinNote db
      { st with noteRooms := registryAdd st.noteRooms a s.userId }
      { s with rooms := s.rooms.filter (fun r => !(isNoteRoom r)) ++
          [RoomName.note a] } b =
      ⟨{ s with rooms := s.rooms.filter (fun r => !(isNoteRoom r)) ++
            [RoomName.note b] },
        { st with noteRooms :=
            registryAdd (registryAdd st.noteRooms a s.userId) b s.userId },
        (joinNote db
          { st with noteRooms := registryAdd st.noteRooms a s.userId }
          { s with rooms := s.rooms.filter (fun r => !(isNoteRoom r)) ++
              [RoomName.note a] } b).emits⟩ := by
    simp [joinNote, hb, isNoteRoom_note, roomJoin_filterNote]
  rw [h2]
  refine ⟨by simp, ?_, ?_, ?_⟩
  · intro hmem
    rcases List.mem_append.mp hmem with hleft | hright
    · exact note_not_mem_filterNote s.rooms a hleft
    · have : RoomName.note a = RoomName.note b := by simpa using hright
      exact hab (by injection this)
  · rw [registryMembers_registryAdd_other _ b a s.userId (Ne.symm hab)]
    exact mem_registryAdd_self st.noteRooms a s.userId
  · exact mem_registryAdd_self (registryAdd st.noteRooms a s.userId) b
      s.userId

/-- C3 witness: the amended rejoin behaviour at the concrete store with
notes 10 and 20 owned by user 1. -/
theorem c3_witness :
    canAccessNote dbNotes sockA0.userId 10 = true ∧
    canAccessNote dbNotes sockA0.userId 20 = true ∧
    (10 : Nat) ≠ 20 ∧
    (RoomName.note 20 ∈
        (joinNote dbNotes (joinNote dbNotes st0 sockA0 10).state
          (joinNote dbNotes st0 sockA0 10).socket 20).socket.rooms ∧
      RoomName.note 10 ∉
        (joinNote dbNotes (joinNote dbNotes st0 sockA0 10).state
          (joinNote dbNotes st0 sockA0 10).socket 20).socket.rooms ∧
      sockA0.userId ∈ registryMembers
        (joinNote dbNotes (joinNote dbNotes st0 sockA0 10).state
          (joinNote dbNotes st0 sockA0 10).socket 20).state.noteRooms 10 ∧
      sockA0.userId ∈ registryMembers
        (joinNote dbNotes (joinNote dbNotes st0 sockA0 10).state
          (joinNote dbNotes st0 sockA0 10).socket 20).state.noteRooms
        20) :=
  ⟨by decide, by decide, by decide,
    c3_rejoin_rooms dbNotes st0 sockA0 10 20 (by decide) (by decide)
      (by decide)⟩

/-- No recipient of a single emission whose event fails a predicate
receives any event satisfying that predicate. -/
theorem countP_received_single (t : Target) (e : SEvent)
    (p : SEvent → Bool) (hp : p e = false) (recip : SocketState) :
    (receivedEvents [(t, e)] recip).countP p = 0 := by
  cases hd : deliversTo t recip <;>
    simp [receivedEvents, hd, List.countP_cons, hp]

/-- C4: a join request failing the access gate yields only a denial
event to the requester (access-denied for notes, task-access-denied for
tasks), leaves the registry and the transport rooms unchanged, and no
recipient receives a user-joined event. -/
theorem c4_join_denied (db : Db) (st : RoomsState) (s : SocketState)
    (n t : Nat) (hn : canAccessNote db s.userId n = false)
    (ht : canAccessTask db s.userId t = false) :
    joinNote db st s n =
      ⟨s, st, [(Target.socket s.sid, SEvent.accessDenied n)]⟩ ∧
    joinTask db st s t =
      ⟨s, st, [(Target.socket s.sid, SEvent.taskAccessDenied t)]⟩ ∧
    (∀ recip : SocketState,
      (receivedEvents (joinNote db st s n).emits recip).countP
        isUserJoinedNote = 0) ∧
    (∀ recip : SocketState,
      (receivedEvents (joinTask db st s t).emits recip).countP
        isUserJoinedTask = 0) := by
  have h1 : joinNote db st s n =
      ⟨s, st, [(Target.socket s.sid, SEvent.accessDenied n)]⟩ := by
    simp [joinNote, hn]
  have h2 : joinTask db st s t =
      ⟨s, st, [(Target.socket s.sid, SEvent.taskAccessDenied t)]⟩ := by
    simp [joinTask, ht]
  refine ⟨h1, h2, fun recip => ?_, fun recip => ?_⟩
  · rw [h1]
    exact countP_received_single _ _ _ rfl recip
  · rw [h2]
    exact countP_received_single _ _ _ rfl recip

/-- C4 witness: the denial behaviour on the empty store, where user 1
can access neither note 5 nor task 7. -/
theorem c4_witness :
    canAccessNote dbEmpty sockA0.userId 5 = false ∧
    canAccessTask dbEmpty sockA0.userId 7 = false ∧
    (joinNote dbEmpty st0 sockA0 5 =
        ⟨sockA0, st0,
          [(Target.socket sockA0.sid, SEvent.accessDenied 5)]⟩ ∧
      joinTask dbEmpty st0 sockA0 7 =
        ⟨sockA0, st0,
          [(Target.socket sockA0.sid, SEvent.taskAccessDenied 7)]⟩ ∧
      (∀ recip : SocketState,
        (receivedEvents (joinNote dbEmpty st0 sockA0 5).emits recip).countP
          isUserJoinedNote = 0) ∧
      (∀ recip : SocketState,
        (receivedEvents (joinTask dbEmpty st0 sockA0 7).emits recip).countP
          isUserJoinedTask = 0)) :=
  ⟨by decide, by decide,
    c4_join_denied dbEmpty st0 sockA0 5 7 (by decide) (by decide)⟩

/-- A user who owns no task with the given id and holds no EDIT grant
for it fails the canEditTask predicate. -/
theorem canEditTask_eq_false_of (db : Db) (uid t : Nat)
    (hown : ∀ tk ∈ db.tasks, tk.id = t → tk.userId ≠ uid)
    (hgrant : ∀ g ∈ db.sharedTasks, g.taskId = t →
      g.sharedWithUserId = uid → g.permission ≠ Perm.EDIT) :
    canEditTask db uid t = false := by
  cases hc : canEditTask db uid t
  · rfl
  · exfalso
    unfold canEditTask at hc
    rw [List.any_eq_true] at hc
    obtain ⟨tk, htk, hpred⟩ := hc
    rw [Bool.and_eq_true, Bool.or_eq_true] at hpred
    obtain ⟨hid, hor⟩ := hpred
    have hid2 : tk.id = t := by simpa using hid
    cases hor with
    | inl howner => exact hown tk htk hid2 (by simpa using howner)
    | inr hany =>
        rw [List.any_eq_true] at hany
        obtain ⟨g, hg, hgp⟩ := hany
        rw [Bool.and_eq_true] at hgp
        obtain ⟨hab, hperm⟩ := hgp
        rw [Bool.and_eq_true] at hab
        obtain ⟨hgid, hgu⟩ := hab
        have hgid2 : g.taskId = tk.id := by simpa using hgid
        have hgu2 : g.sharedWithUserId = uid := by simpa using hgu
        have hperm2 : g.permission = Perm.EDIT := by simpa using hperm
        exact hgrant g hg (hid2 ▸ hgid2) hgu2 hperm2

/-- C5: a sender who is neither the task owner nor an EDIT grantee
(for example a VIEW-only grantee) gets exactly a task-update-denied
event, the store is unchanged, and no recipient receives a
task-status-changed event. -/
theorem c5_status_update_denied (db : Db) (s : SocketState) (t : Nat)
    (status : String) (ts : Nat)
    (hown : ∀ tk ∈ db.tasks, tk.id = t → tk.userId ≠ s.userId)
    (hgrant : ∀ g ∈ db.sharedTasks, g.taskId = t →
      g.sharedWithUserId = s.userId → g.permission ≠ Perm.EDIT) :
    taskStatusUpdate db s t status ts =
      (db, [(Target.socket s.sid, SEvent.taskUpdateDenied t)]) ∧
    ∀ recip : SocketState,
      (receivedEvents (taskStatusUpdate db s t status ts).2 recip).countP
        isTaskStatusChanged = 0 := by
  have hce : canEditTask db s.userId t = false :=
    canEditTask_eq_false_of db s.userId t hown hgrant
  have h1 : taskStatusUpdate db s t status ts =
      (db, [(Target.socket s.sid, SEvent.taskUpdateDenied t)]) := by
    simp [taskStatusUpdate, hce]
  refine ⟨h1, fun recip => ?_⟩
  rw [h1]
  exact countP_received_single _ _ _ rfl recip

/-- C5 witness: user 2, a VIEW-only grantee of task 7, is denied and
nothing changes. -/
theorem c5_witness :
    (∀ tk ∈ dbTask.tasks, tk.id = 7 → tk.userId ≠ sockB0.userId) ∧
    (∀ g ∈ dbTask.sharedTasks, g.taskId = 7 →
      g.sharedWithUserId = sockB0.userId → g.permission ≠ Perm.EDIT) ∧
    (taskStatusUpdate dbTask sockB0 7 "DONE" 0 =
        (dbTask, [(Target.socket sockB0.sid, SEvent.taskUpdateDenied 7)]) ∧
      ∀ recip : SocketState,
        (receivedEvents (taskStatusUpdate dbTask sockB0 7 "DONE" 0).2
            recip).countP isTaskStatusChanged = 0) :=
  ⟨by decide, by decide,
    c5_status_update_denied dbTask sockB0 7 "DONE" 0 (by decide)
      (by decide)⟩

/-- C6: an authorized editor sending a status outside the fixed
enumeration gets exactly a task-update-error event, the store is
unchanged, and no recipient receives a task-status-changed event. -/
theorem c6_invalid_status (db : Db) (s : SocketState) (t : Nat)
    (status : String) (ts : Nat)
    (hedit : canEditTask db s.userId t = true)
    (hstat : validStatuses.contains status = false) :
    taskStatusUpdate db s t status ts =
      (db,
        [(Target.socket s.sid, SEvent.taskUpdateError "Invalid status")]) ∧
    ∀ recip : SocketState,
      (receivedEvents (taskStatusUpdate db s t status ts).2 recip).countP
        isTaskStatusChanged = 0 := by
  have hstat2 : status ∉ validStatuses := by simpa using hstat
  have h1 : taskStatusUpdate db s t status ts =
      (db,
        [(Target.socket s.sid, SEvent.taskUpdateError "Invalid status")]) := by
    simp [taskStatusUpdate, hedit, hstat2]
  refine ⟨h1, fun recip => ?_⟩
  rw [h1]
  exact countP_received_single _ _ _ rfl recip

/-- C6 witness: the owner of task 7 sending status INVALID gets a
task-update-error and nothing changes. -/
theorem c6_witness :
    canEditTask dbTask sockA0.userId 7 = true ∧
    validStatuses.contains "INVALID" = false ∧
    (taskStatusUpdate dbTask sockA0 7 "INVALID" 0 =
        (dbTask,
          [(Target.socket sockA0.sid,
              SEvent.taskUpdateError "Invalid status")]) ∧
      ∀ recip : SocketState,
        (receivedEvents (taskStatusUpdate dbTask sockA0 7 "INVALID" 0).2
            recip).countP isTaskStatusChanged = 0) :=
  ⟨by decide, by decide,
    c6_invalid_status dbTask sockA0 7 "INVALID" 0 (by decide) (by decide)⟩

/-- C7: when two distinct sockets are members of the same note room and
the second emits note-content-change, the first receives exactly one
note-content-updated event carrying the same content and the sender's
identity, and the sender receives nothing back. -/
theorem c7_content_relay (a b : SocketState) (n : Nat) (content : String)
    (cp ts : Nat) (hmemA : RoomName.note n ∈ a.rooms)
    (_hmemB : RoomName.note n ∈ b.rooms) (hsid : a.sid ≠ b.sid) :
    receivedEvents (noteContentChange b n content cp ts) a =
      [SEvent.noteContentUpdated n content b.user cp ts] ∧
    receivedEvents (noteContentChange b n content cp ts) b = [] := by
  constructor
  · simp [noteContentChange, receivedEvents, deliversTo, hmemA, hsid]
  · simp [noteContentChange, receivedEvents, deliversTo]

/-- C7 witness: users 1 and 2 in note room 42; user 2 sends content
hello; user 1 receives it exactly once with user 2 as updatedBy and
user 2 receives nothing. -/
theorem c7_witness :
    RoomName.note 42 ∈ sockA42.rooms ∧
    RoomName.note 42 ∈ sockB42.rooms ∧
    sockA42.sid ≠ sockB42.sid ∧
    (receivedEvents (noteContentChange sockB42 42 "hello" 0 5) sockA42 =
        [SEvent.noteContentUpdated 42 "hello" sockB42.user 0 5] ∧
      receivedEvents (noteContentChange sockB42 42 "hello" 0 5) sockB42 =
        []) :=
  ⟨by decide, by decide, by decide,
    c7_content_relay sockA42 sockB42 42 "hello" 0 5 (by decide) (by decide)
      (by decide)⟩

/-- C8: the claim requires every relay kind to carry a server-generated
timestamp; the attachment-added relay emits an object with no timestamp
field at all, as this concrete run shows, so the claim fails for the
attachment events. -/
theorem c8_counterexample :
    attachmentAdded sockB42 42 77 =
      [(Target.roomExcept (RoomName.note 42) sockB42.sid,
          SEvent.attachmentAdded 42 77 uB)] ∧
    eventTimestamp (SEvent.attachmentAdded 42 77 uB) = none ∧
    eventTimestamp (SEvent.attachmentDeleted 42 77 uB) = none := by
  refine ⟨rfl, rfl, rfl⟩

/-- C8 (amended): every relay event (content-change, cursor-move,
typing, attachment-added, attachment-deleted) is enriched with the
sender's identity; the content-change, cursor-move and typing relays
also carry a server-generated timestamp, but the attachment-added and
attachment-deleted relays carry none. -/
theorem c8_relay_enrichment (s : SocketState) (n : Nat) (content : String)
    (cp pos att attId ts : Nat) (ty : Bool) :
    ((noteContentChange s n content cp ts).map fun te =>
        (eventSender te.2, eventTimestamp te.2)) =
      [(some s.user, some ts)] ∧
    ((cursorMove s n pos ts).map fun te =>
        (eventSender te.2, eventTimestamp te.2)) =
      [(some s.user, some ts)] ∧
    ((userTyping s n ty ts).map fun te =>
        (eventSender te.2, eventTimestamp te.2)) =
      [(some s.user, some ts)] ∧
    ((taskTyping s n ty ts).map fun te =>
        (eventSender te.2, eventTimestamp te.2)) =
      [(some s.user, some ts)] ∧
    ((commentTyping s n ty ts).map fun te =>
        (eventSender te.2, eventTimestamp te.2)) =
      [(some s.user, some ts)] ∧
    ((attachmentAdded s n att).map fun te =>
        (eventSender te.2, eventTimestamp te.2)) =
      [(some s.user, none)] ∧
    ((attachmentDeleted s n attId).map fun te =>
        (eventSender te.2, eventTimestamp te.2)) =
      [(some s.user, none)] := by
  refine ⟨rfl, rfl, rfl, rfl, rfl, rfl, rfl⟩

/-- C9: every relay handler forwards the event to the members of the
named room even when the sender never joined that room and has no
access to the scope in the store: no membership or access check is
performed on the sender. -/
theorem c9_relay_no_gate (db : Db) (s recip : SocketState) (n t : Nat)
    (content : String) (cp pos ts att attId : Nat) (ty : Bool)
    (_hacc : canAccessNote db s.userId n = false)
    (_hacct : canAccessTask db s.userId t = false)
    (_hnm : RoomName.note n ∉ s.rooms)
    (_hnt : RoomName.task t ∉ s.rooms)
    (hrn : RoomName.note n ∈ recip.rooms)
    (hrt : RoomName.task t ∈ recip.rooms)
    (hsid : recip.sid ≠ s.sid) :
    receivedEvents (noteContentChange s n content cp ts) recip =
      [SEvent.noteContentUpdated n content s.user cp ts] ∧
    receivedEvents (cursorMove s n pos ts) recip =
      [SEvent.userCursorMove n s.userId s.user pos ts] ∧
    receivedEvents (userTyping s n ty ts) recip =
      [SEvent.userTypingUpdate n s.userId s.user ty ts] ∧
    receivedEvents (attachmentAdded s n att) recip =
      [SEvent.attachmentAdded n att s.user] ∧
    receivedEvents (attachmentDeleted s n attId) recip =
      [SEvent.attachmentDeleted n attId s.user] ∧
    receivedEvents (taskTyping s t ty ts) recip =
      [SEvent.userTaskTyping t s.userId s.user ty ts] ∧
    receivedEvents (commentTyping s t ty ts) recip =
      [SEvent.userCommentTyping t s.userId s.user ty ts] := by
  refine ⟨?_, ?_, ?_, ?_, ?_, ?_, ?_⟩ <;>
    simp [noteContentChange, cursorMove, userTyping, attachmentAdded,
      attachmentDeleted, taskTyping, commentTyping, receivedEvents,
      deliversTo, hrn, hrt, hsid]

/-- C9 witness: user 3, who never joined anything and has no grants in
the empty store, injects events into note room 42 and task room 7 and
user 1 (a member of both) receives each of them. -/
theorem c9_witness :
    canAccessNote dbEmpty sockC.userId 42 = false ∧
    canAccessTask dbEmpty sockC.userId 7 = false ∧
    RoomName.note 42 ∉ sockC.rooms ∧
    RoomName.task 7 ∉ sockC.rooms ∧
    RoomName.note 42 ∈ sockABoth.rooms ∧
    RoomName.task 7 ∈ sockABoth.rooms ∧
    sockABoth.sid ≠ sockC.sid ∧
    (receivedEvents (noteContentChange sockC 42 "inject" 0 9) sockABoth =
        [SEvent.noteContentUpdated 42 "inject" sockC.user 0 9] ∧
      receivedEvents (cursorMove sockC 42 3 9) sockABoth =
        [SEvent.userCursorMove 42 sockC.userId sockC.user 3 9] ∧
      receivedEvents (userTyping sockC 42 true 9) sockABoth =
        [SEvent.userTypingUpdate 42 sockC.userId sockC.user true 9] ∧
      receivedEvents (attachmentAdded sockC 42 77) sockABoth =
        [SEvent.attachmentAdded 42 77 sockC.user] ∧
      receivedEvents (attachmentDeleted sockC 42 78) sockABoth =
        [SEvent.attachmentDeleted 42 78 sockC.user] ∧
      receivedEvents (taskTyping sockC 7 true 9) sockABoth =
        [SEvent.userTaskTyping 7 sockC.userId sockC.user true 9] ∧
      receivedEvents (commentTyping sockC 7 true 9) sockABoth =
        [SEvent.userCommentTyping 7 sockC.userId sockC.user true 9]) :=
  ⟨by decide, by decide, by decide, by decide, by decide, by decide,
    by decide,
    c9_relay_no_gate dbEmpty sockC sockABoth 42 7 "inject" 0 3 9 77 78
      true (by decide) (by decide) (by decide) (by decide) (by decide)
      (by decide) (by decide)⟩

/-- A user passing the canEditTask gate guarantees the task lookup of
the status update finds a row. -/
theorem find_task_of_canEditTask (db : Db) (uid t : Nat)
    (h : canEditTask db uid t = true) :
    ∃ tk, db.tasks.find? (fun x => x.id == t) = some tk := by
  unfold canEditTask at h
  rw [List.any_eq_true] at h
  obtain ⟨tk, htk, hpred⟩ := h
  rw [Bool.and_eq_true] at hpred
  have hsome : (db.tasks.find? fun x => x.id == t).isSome := by
    rw [List.find?_isSome]
    exact ⟨tk, htk, hpred.1⟩
  exact Option.isSome_iff_exists.mp hsome

/-- C10: a successful status update by a sender who is a member of the
task room delivers the task-status-changed event to that sender twice:
once through the io.to room broadcast and once through the direct
confirmation emit. -/
theorem c10_double_delivery (db : Db) (s : SocketState) (t : Nat)
    (status : String) (ts : Nat)
    (hedit : canEditTask db s.userId t = true)
    (hstat : status ∈ validStatuses)
    (hmem : RoomName.task t ∈ s.rooms) :
    (receivedEvents (taskStatusUpdate db s t status ts).2 s).countP
      isTaskStatusChanged = 2 := by
  obtain ⟨tk, hfind⟩ := find_task_of_canEditTask db s.userId t hedit
  simp [taskStatusUpdate, hedit, hstat, dbTaskUpdate, hfind,
    receivedEvents, deliversTo, hmem, isTaskStatusChanged,
    List.countP_cons]

/-- C10 witness: the owner of task 7, sitting in task room 7, updates
the status to DONE and receives task-status-changed twice. -/
theorem c10_witness :
    canEditTask dbTask sockATask.userId 7 = true ∧
    "DONE" ∈ validStatuses ∧
    RoomName.task 7 ∈ sockATask.rooms ∧
    (receivedEvents (taskStatusUpdate dbTask sockATask 7 "DONE" 4).2
        sockATask).countP isTaskStatusChanged = 2 :=
  ⟨by decide, by decide, by decide,
    c10_double_delivery dbTask sockATask 7 "DONE" 4 (by decide)
      (by decide) (by decide)⟩

/-- C2: the claim requires share-note to evaluate an access predicate
and emit no notification on failure; on the empty store user 1 has no
access to note 5 and fails every predicate, yet share-note emits the
global-note-shared notification to everyone and no denial event, and
revoke-access behaves the same. -/
theorem c2_counterexample :
    canAccessNote dbEmpty sockA0.userId 5 = false ∧
    canEditTask dbEmpty sockA0.userId 5 = false ∧
    shareNote sockA0 2 5 none 0 =
      [(Target.everyone,
          SEvent.globalNoteShared 2 5 uA
            "Alice shared a note with you!" 0)] ∧
    revokeAccess sockA0 2 5 none 0 =
      [(Target.everyone,
          SEvent.globalAccessRevoked 2 5 uA
            "Alice revoked your access to a note" 0)] := by
  refine ⟨by decide, by decide, rfl, rfl⟩

/-- C2 (amended): join-note, join-task, task-status-update, share-task
and revoke-task-access each evaluate the appropriate predicate against
the store passed to the handler and, when it is false, emit exactly one
denial event to the requester and nothing else; share-note and
revoke-access perform no access check and unconditionally emit the
global notification to every connected client. -/
theorem c2_access_gates :
    (∀ (db : Db) (st : RoomsState) (s : SocketState) (n : Nat),
      canAccessNote db s.userId n = false →
        joinNote db st s n =
          ⟨s, st, [(Target.socket s.sid, SEvent.accessDenied n)]⟩) ∧
    (∀ (db : Db) (st : RoomsState) (s : SocketState) (t : Nat),
      canAccessTask db s.userId t = false →
        joinTask db st s t =
          ⟨s, st, [(Target.socket s.sid, SEvent.taskAccessDenied t)]⟩) ∧
    (∀ (db : Db) (s : SocketState) (t : Nat) (status : String) (ts : Nat),
      canEditTask db s.userId t = false →
        taskStatusUpdate db s t status ts =
          (db, [(Target.socket s.sid, SEvent.taskUpdateDenied t)])) ∧
    (∀ (db : Db) (s : SocketState) (t tu : Nat) (p : Perm) (ts : Nat),
      canEditTask db s.userId t = false →
        shareTask db s t tu p ts =
          [(Target.socket s.sid, SEvent.shareDenied t)]) ∧
    (∀ (db : Db) (s : SocketState) (t tu : Nat) (ts : Nat),
      canEditTask db s.userId t = false →
        revokeTaskAccess db s t tu ts =
          [(Target.socket s.sid, SEvent.revokeDenied t)]) ∧
    (∀ (s : SocketState) (tu n : Nat) (sb : Option User) (ts : Nat),
      shareNote s tu n sb ts =
        [(Target.everyone,
            SEvent.globalNoteShared tu n (sb.getD s.user)
              (jsOrStr (sb.map User.name) s.user.name ++
                " shared a note with you!") ts)]) ∧
    (∀ (s : SocketState) (tu n : Nat) (rb : Option User) (ts : Nat),
      revokeAccess s tu n rb ts =
        [(Target.everyone,
            SEvent.globalAccessRevoked tu n (rb.getD s.user)
              (jsOrStr (rb.map User.name) s.user.name ++
                " revoked your access to a note") ts)]) := by
  refine ⟨?_, ?_, ?_, ?_, ?_, ?_, ?_⟩
  · intro db st s n h
    simp [joinNote, h]
  · intro db st s t h
    simp [joinTask, h]
  · intro db s t status ts h
    simp [taskStatusUpdate, h]
  · intro db s t tu p ts h
    simp [shareTask, h]
  · intro db s t tu ts h
    simp [revokeTaskAccess, h]
  · intro s tu n sb ts
    rfl
  · intro s tu n rb ts
    rfl

/-- C2 witness: each gated handler denied on the empty store, and the
two ungated handlers emitting unconditionally. -/
theorem c2_witness :
    joinNote dbEmpty st0 sockA0 5 =
      ⟨sockA0, st0, [(Target.socket sockA0.sid, SEvent.accessDenied 5)]⟩ ∧
    joinTask dbEmpty st0 sockA0 7 =
      ⟨sockA0, st0,
        [(Target.socket sockA0.sid, SEvent.taskAccessDenied 7)]⟩ ∧
    taskStatusUpdate dbEmpty sockA0 7 "DONE" 0 =
      (dbEmpty, [(Target.socket sockA0.sid, SEvent.taskUpdateDenied 7)]) ∧
    shareTask dbEmpty sockA0 7 2 Perm.VIEW 0 =
      [(Target.socket sockA0.sid, SEvent.shareDenied 7)] ∧
    revokeTaskAccess dbEmpty sockA0 7 2 0 =
      [(Target.socket sockA0.sid, SEvent.revokeDenied 7)] ∧
    shareNote sockA0 2 5 none 0 =
      [(Target.everyone,
          SEvent.globalNoteShared 2 5
            ((none : Option User).getD sockA0.user)
            (jsOrStr ((none : Option User).map User.name)
                sockA0.user.name ++ " shared a note with you!") 0)] ∧
    revokeAccess sockA0 2 5 none 0 =
      [(Target.everyone,
          SEvent.globalAccessRevoked 2 5
            ((none : Option User).getD sockA0.user)
            (jsOrStr ((none : Option User).map User.name)
                sockA0.user.name ++ " revoked your access to a note")
            0)] :=
  ⟨c2_access_gates.1 dbEmpty st0 sockA0 5 (by decide),
    c2_access_gates.2.1 dbEmpty st0 sockA0 7 (by decide),
    c2_access_gates.2.2.1 dbEmpty sockA0 7 "DONE" 0 (by decide),
    c2_access_gates.2.2.2.1 dbEmpty sockA0 7 2 Perm.VIEW 0 (by decide),
    c2_access_gates.2.2.2.2.1 dbEmpty sockA0 7 2 0 (by decide),
    c2_access_gates.2.2.2.2.2.1 sockA0 2 5 none 0,
    c2_access_gates.2.2.2.2.2.2 sockA0 2 5 none 0⟩

end AiNotes
